import Mathlib

/-!
# Verification of the kv-cache offloading bottleneck calculator

A shallow embedding of `src/bottleneck_calculator.py` (the roofline-style
prefill/decode bottleneck model) together with proofs of the specified
properties.

Modelling conventions:
* Python floats are modelled by `PyFloat`: either a finite rational or the
  value `float('inf')`.  All inputs in the legal domain are non-negative,
  so negative infinity never arises in the reachable code paths.
* Python float division `a / b` raises `ZeroDivisionError` when `b == 0`;
  it is modelled by `pydiv`, returning `none` exactly in that case.  Every
  function that contains a division is therefore `Option`-valued, and the
  totality claims become "the result is `some _` on the legal domain".
* `round(x, n)` on exact values is modelled by round-half-to-even
  (`roundHalfEven`), Python's rounding mode.
* Percent format strings such as `f"{x:.1%}"` are modelled by the numeric
  content of the rendered string (`pct1`), i.e. `x * 100` rounded to one
  decimal place; the trailing `%` sign carries no information.
-/

/-- A Python float value as used by the calculator: a finite rational or
`float('inf')`. -/
inductive PyFloat where
  | fin : ℚ → PyFloat
  | inf : PyFloat
deriving DecidableEq, Repr

/-- Python float division: `a / b`, raising (`none`) when the divisor is
zero. -/
def pydiv (a b : ℚ) : Option ℚ :=
  if b = 0 then none else some (a / b)

/-- Python comparison `a <= x` between a finite float `a` and a possibly
infinite float `x` (`a <= inf` is `True`). -/
def qleF (a : ℚ) : PyFloat → Bool
  | .fin x => a ≤ x
  | .inf => true

/-- Round-half-to-even to the nearest integer, Python's rounding mode for
`round` on exact values. -/
def roundHalfEven (q : ℚ) : ℤ :=
  let f := ⌊q⌋
  let r := q - (f : ℚ)
  if r < 1/2 then f
  else if (1 : ℚ)/2 < r then f + 1
  else if 2 ∣ f then f else f + 1

/-- Python `round(q, n)` on an exact value. -/
def pyRound (n : ℕ) (q : ℚ) : ℚ :=
  (roundHalfEven (q * 10 ^ n) : ℚ) / 10 ^ n

/-- `round(x, 2)` lifted to `PyFloat` (`round(inf, 2)` is `inf`). -/
def roundF2 : PyFloat → PyFloat
  | .fin q => .fin (pyRound 2 q)
  | .inf => .inf

/-- Numeric content of the Python format `f"{q:.1%}"`: `q * 100` rounded to
one decimal place (the rendered percent string minus its `%` sign). -/
def pct1 (q : ℚ) : ℚ :=
  pyRound 1 (q * 100)

/-- `pct1` lifted to `PyFloat` (decode's `alpha_star` may be infinite; the
format then renders the string `inf%`). -/
def pct1F : PyFloat → PyFloat
  | .fin q => .fin (pct1 q)
  | .inf => .inf

/-! ## PrefillSpeedupCalculator -/

/-- The constructor state of `PrefillSpeedupCalculator.__init__` (a missing
`W` argument defaults to `0.0`). -/
structure PrefillCalc where
  N : ℚ
  R : ℚ
  T : ℚ
  alpha : ℚ
  W : ℚ := 0
deriving DecidableEq, Repr

/-- The legal input domain of the prefill model: finite non-negative rates
and an offload fraction in `[0, 1]`. -/
def PrefillCalc.Valid (c : PrefillCalc) : Prop :=
  0 ≤ c.N ∧ 0 ≤ c.R ∧ 0 ≤ c.T ∧ 0 ≤ c.W ∧ 0 ≤ c.alpha ∧ c.alpha ≤ 1

instance (c : PrefillCalc) : Decidable c.Valid := by
  unfold PrefillCalc.Valid; infer_instance

/-- `self.E`: `T / R` if `R > 0` else `float('inf')`
(`calculate_metrics`, first branch). -/
def PrefillCalc.E (c : PrefillCalc) : Option PyFloat :=
  if 0 < c.R then (pydiv c.T c.R).map PyFloat.fin else some PyFloat.inf

/-- `self.alpha_star`: `E / (1 + E)` if `E != inf` else `1.0`
(`calculate_metrics`, second branch).  Always a finite float. -/
def PrefillCalc.alpha_star (c : PrefillCalc) : Option ℚ :=
  c.E.bind fun e =>
    match e with
    | .fin q => pydiv q (1 + q)
    | .inf => some 1

/-- `self.ttft_vanilla = self.N * self.T`. -/
def PrefillCalc.ttft_vanilla (c : PrefillCalc) : ℚ :=
  c.N * c.T

/-- `retrieval_cost = self.alpha * self.N * self.R`. -/
def PrefillCalc.retrieval_cost (c : PrefillCalc) : ℚ :=
  c.alpha * c.N * c.R

/-- `compute_cost = (1 - self.alpha) * self.N * self.T`. -/
def PrefillCalc.compute_cost (c : PrefillCalc) : ℚ :=
  (1 - c.alpha) * c.N * c.T

/-- `write_cost = (1 - self.alpha) * self.N * self.W`. -/
def PrefillCalc.write_cost (c : PrefillCalc) : ℚ :=
  (1 - c.alpha) * c.N * c.W

/-- `self.ttft_offloaded = max(retrieval_cost, compute_cost, write_cost)`. -/
def PrefillCalc.ttft_offloaded (c : PrefillCalc) : ℚ :=
  max c.retrieval_cost (max c.compute_cost c.write_cost)

/-- `speedup_actual`: `ttft_vanilla / ttft_offloaded` if
`ttft_offloaded > 0` else `float('inf')` (`analyze_speedup`). -/
def PrefillCalc.speedup_actual (c : PrefillCalc) : Option PyFloat :=
  if 0 < c.ttft_offloaded then (pydiv c.ttft_vanilla c.ttft_offloaded).map PyFloat.fin
  else some PyFloat.inf

/-- The `regime` string chosen by `analyze_speedup`:
`"Compute-Bound"` when `alpha <= alpha_star`, else `"I/O-Bound"`. -/
def PrefillCalc.regime (c : PrefillCalc) : Option String :=
  c.alpha_star.map fun as =>
    if c.alpha ≤ as then "Compute-Bound" else "I/O-Bound"

/-- `speedup_theoretical` as computed by the two branches of
`analyze_speedup`: compute-bound gives `1 / (1 - alpha)` (or `inf` when
`alpha = 1`); I/O-bound gives `E / alpha` if `alpha > 0` else `0`.  When
`E` is infinite and `alpha > 0`, Python's `inf / alpha` is `inf`. -/
def PrefillCalc.speedup_theoretical (c : PrefillCalc) : Option PyFloat :=
  c.alpha_star.bind fun as =>
    if c.alpha ≤ as then
      if 0 < 1 - c.alpha then (pydiv 1 (1 - c.alpha)).map PyFloat.fin
      else some PyFloat.inf
    else
      c.E.bind fun e =>
        if 0 < c.alpha then
          match e with
          | .fin q => (pydiv q c.alpha).map PyFloat.fin
          | .inf => some PyFloat.inf
        else some (.fin 0)

/-- The dictionary returned by `analyze_speedup`.  The two presentation
strings `Insight` and `Strategy` (free-text guidance assembled from the
same quantities) are not modelled; `Actual` and `Theoretical` carry
`round(_, 2)` of the internal ratios, and the two alpha entries carry the
numeric content of their `.1%` format strings. -/
structure PrefillRecord where
  Phase : String
  Regime : String
  Metric : String
  Actual : PyFloat
  Theoretical : PyFloat
  AlphaCurrentPct : ℚ
  AlphaStarPct : ℚ
deriving DecidableEq, Repr

/-- `PrefillSpeedupCalculator.analyze_speedup`: assembles the result
record; `none` models a `ZeroDivisionError` escaping the call. -/
def PrefillCalc.analyze_speedup (c : PrefillCalc) : Option PrefillRecord :=
  c.alpha_star.bind fun as =>
    c.speedup_actual.bind fun sa =>
      c.speedup_theoretical.bind fun st =>
        some { Phase := "PREFILL"
               Regime := if c.alpha ≤ as then "Compute-Bound" else "I/O-Bound"
               Metric := "Speedup"
               Actual := roundF2 sa
               Theoretical := roundF2 st
               AlphaCurrentPct := pct1 c.alpha
               AlphaStarPct := pct1 as }

/-! ## DecodeSpeedupCalculator -/

/-- The constructor state of `DecodeSpeedupCalculator.__init__`. -/
structure DecodeCalc where
  L : ℚ
  R : ℚ
  T : ℚ
  alpha : ℚ
deriving DecidableEq, Repr

/-- The legal input domain of the decode model. -/
def DecodeCalc.Valid (c : DecodeCalc) : Prop :=
  0 ≤ c.L ∧ 0 ≤ c.R ∧ 0 ≤ c.T ∧ 0 ≤ c.alpha ∧ c.alpha ≤ 1

instance (c : DecodeCalc) : Decidable c.Valid := by
  unfold DecodeCalc.Valid; infer_instance

/-- `tpot_vanilla = self.T` (`analyze`, step 1). -/
def DecodeCalc.tpot_vanilla (c : DecodeCalc) : ℚ :=
  c.T

/-- `io_time = (self.alpha * self.L) * self.R` (`analyze`, step 2). -/
def DecodeCalc.io_time (c : DecodeCalc) : ℚ :=
  c.alpha * c.L * c.R

/-- `compute_time = self.T` (`analyze`, step 2). -/
def DecodeCalc.compute_time (c : DecodeCalc) : ℚ :=
  c.T

/-- `tpot_offloaded = max(compute_time, io_time)` (`analyze`, step 2). -/
def DecodeCalc.tpot_offloaded (c : DecodeCalc) : ℚ :=
  max c.compute_time c.io_time

/-- `slowdown`: `tpot_offloaded / tpot_vanilla` if `tpot_vanilla > 0` else
`float('inf')` (`analyze`, step 3). -/
def DecodeCalc.slowdown (c : DecodeCalc) : Option PyFloat :=
  if 0 < c.tpot_vanilla then (pydiv c.tpot_offloaded c.tpot_vanilla).map PyFloat.fin
  else some PyFloat.inf

/-- `alpha_star`: `T / (L * R)` if `L * R > 0` else `float('inf')`
(`analyze`, step 4). -/
def DecodeCalc.alpha_star (c : DecodeCalc) : Option PyFloat :=
  if 0 < c.L * c.R then (pydiv c.T (c.L * c.R)).map PyFloat.fin
  else some PyFloat.inf

/-- The `regime` string chosen by `analyze`, step 5:
`"Compute-Bound (Safe)"` when `alpha <= alpha_star`, else
`"I/O-Bound (Laggy)"`. -/
def DecodeCalc.regime (c : DecodeCalc) : Option String :=
  c.alpha_star.map fun as =>
    if qleF c.alpha as then "Compute-Bound (Safe)" else "I/O-Bound (Laggy)"

/-- The dictionary returned by `DecodeSpeedupCalculator.analyze`.  The
presentation strings `Actual` (the impact message), `Insight` and
`Strategy` are not modelled; the TPOT entries carry `round(_, 2)` and the
alpha entries the numeric content of their `.1%` format strings. -/
structure DecodeRecord where
  Phase : String
  LContext : ℚ
  Regime : String
  Metric : String
  TPOT_Vanilla : ℚ
  TPOT_Offloaded : ℚ
  AlphaCurrentPct : ℚ
  AlphaStarPct : PyFloat
deriving DecidableEq, Repr

/-- `DecodeSpeedupCalculator.analyze`: assembles the result record; `none`
models a `ZeroDivisionError` escaping the call. -/
def DecodeCalc.analyze (c : DecodeCalc) : Option DecodeRecord :=
  c.slowdown.bind fun _ =>
    c.alpha_star.bind fun as =>
      some { Phase := "DECODE"
             LContext := c.L
             Regime := if qleF c.alpha as then "Compute-Bound (Safe)" else "I/O-Bound (Laggy)"
             Metric := "Slowdown"
             TPOT_Vanilla := pyRound 2 c.tpot_vanilla
             TPOT_Offloaded := pyRound 2 c.tpot_offloaded
             AlphaCurrentPct := pct1 c.alpha
             AlphaStarPct := pct1F as }

/-! ## derive_constants_from_results

The deriver reads the latest `metrics_*.csv` under the baseline directory
with pandas and averages its columns.  The file lookup and CSV parse are
modelled by an `Option (List BaselineRow)` argument: `none` when no
metrics CSV is found, `some rows` for a successfully parsed table.  The
offload-directory `pcie_stats_*.csv` lookup is performed but its result is
unused by the source; it is modelled by a second argument that the
definition ignores.  The embedding is faithful for non-empty row lists
(pandas means of an empty frame are NaN, which is outside this model). -/

/-- One row of the baseline metrics CSV (`prompt_len`, `ttft` in seconds,
`avg_itl` in seconds). -/
structure BaselineRow where
  prompt_len : ℚ
  ttft : ℚ
  avg_itl : ℚ
deriving DecidableEq, Repr

/-- Column mean, as computed by `pandas.Series.mean` on a non-empty
column. -/
def colMean (xs : List ℚ) : ℚ :=
  xs.sum / xs.length

/-- Python `int(q)`: truncation toward zero. -/
def pyInt (q : ℚ) : ℤ :=
  if q < 0 then ⌈q⌉ else ⌊q⌋

/-- The `constants` dictionary built by `derive_constants_from_results`:
each key is present (`some`) exactly when the source sets it.  `warned`
records that the missing-CSV warning was printed. -/
structure DerivedConstants where
  N : Option ℤ
  T_prefill : Option ℚ
  T_decode : Option ℚ
  R : Option ℚ
  warned : Bool
deriving DecidableEq, Repr

/-- `derive_constants_from_results(baseline_dir, offload_dir)`.  `baseline`
is the parsed latest metrics CSV (or `none` when absent); `pcie` is the
latest PCIe stats CSV, looked up but never used by the source. -/
def derive_constants_from_results (baseline : Option (List BaselineRow))
    (pcie : Option (List ℚ)) : DerivedConstants :=
  match baseline with
  | none =>
      { N := none, T_prefill := none, T_decode := none, R := none, warned := true }
  | some rows =>
      let N : ℚ := colMean (rows.map (·.prompt_len))
      let ttft_base : ℚ := colMean (rows.map (·.ttft)) * 1000000
      let T_prefill : ℚ := if 0 < N then ttft_base / N else 0
      let T_decode : ℚ := colMean (rows.map (·.avg_itl)) * 1000000
      let R_estimate : ℚ := 50
      let _ := pcie
      { N := some (pyInt N)
        T_prefill := some T_prefill
        T_decode := some T_decode
        R := some R_estimate
        warned := false }

/-! ## The `__main__` dispatch

The command-line entry point of `bottleneck_calculator.py`.  Parsed
arguments are modelled by `Args` (absent optional flags are `none`); the
contents of the baseline directory are modelled by an
`Option (List BaselineRow)` environment argument, exactly as for
`derive_constants_from_results`.  Printing is not modelled.  The
`try/except` around the auto-derivation can only trap the formatted
status print (`f"... T={T:.2f} ..."` on a `None`), which runs after all
assignments of the block, so a trapped exception has no effect on the
subsequent control flow and the block is modelled without it. -/

/-- The `--mode` choices. -/
inductive Mode where
  | prefill
  | decode
  | both
deriving DecidableEq, Repr

/-- The parsed command line: `argparse` leaves an omitted optional flag as
`None`.  `baseline_dir` and `offload_dir` are the raw path strings. -/
structure Args where
  mode : Mode
  N : Option ℤ
  L : Option ℤ
  R : Option ℚ
  T : Option ℚ
  alpha : Option ℚ
  baseline_dir : Option String
  offload_dir : Option String
deriving DecidableEq, Repr

/-- Python truthiness of an optional int (`not val_N`): falsy when absent
or zero. -/
def truthyInt : Option ℤ → Bool
  | none => false
  | some n => n ≠ 0

/-- Python truthiness of an optional float (`not args.R`): falsy when
absent or zero. -/
def truthyRat : Option ℚ → Bool
  | none => false
  | some q => q ≠ 0

/-- Python truthiness of an optional string (`args.baseline_dir`): falsy
when absent or empty. -/
def truthyStr : Option String → Bool
  | none => false
  | some s => s ≠ ""

/-- One `run_scenario(name, N_or_L, R, T, alpha, mode)` call. -/
structure ScenarioCall where
  name : String
  N_or_L : ℤ
  R : ℚ
  T : ℚ
  alpha : ℚ
  mode : String
deriving DecidableEq, Repr

/-- The five hard-coded demonstration scenarios run when neither values
nor a baseline directory are supplied. -/
def defaultScenarios : List ScenarioCall :=
  [ { name := "Scenario 1: A100 GPU (Compute Bound)", N_or_L := 2000, R := 41, T := 110,
      alpha := 3/5, mode := "prefill" }
  , { name := "Scenario 2: H100 GPU (I/O Bound)", N_or_L := 2000, R := 50, T := 100,
      alpha := 9/10, mode := "prefill" }
  , { name := "Decode 1: Short Ctx, Fast SSD", N_or_L := 1000, R := 1/10, T := 200,
      alpha := 4/5, mode := "decode" }
  , { name := "Decode 2: Long Ctx (I/O Bound)", N_or_L := 8000, R := 1/10, T := 200,
      alpha := 4/5, mode := "decode" }
  , { name := "Decode 3: NVMe Reality Check", N_or_L := 4000, R := 1/2, T := 200,
      alpha := 1/2, mode := "decode" } ]

/-- The observable outcome of the `__main__` block. -/
inductive MainOutcome where
  | defaults (scenarios : List ScenarioCall)
  | configError
  | ran (runPrefill runDecode : Bool) (N_or_L : ℤ) (R T alpha : ℚ)
deriving DecidableEq, Repr

/-- The process exit status of each outcome (`exit(1)` on a configuration
error, normal termination otherwise). -/
def MainOutcome.exitCode : MainOutcome → ℕ
  | .configError => 1
  | _ => 0

/-- The alias resolution
`val_N = args.N if args.N is not None else args.L`. -/
def Args.val_N (args : Args) : Option ℤ :=
  match args.N with
  | some n => some n
  | none => args.L

/-- The `__main__` block of `bottleneck_calculator.py` after argument
parsing: alias resolution, the default-scenario gate (by truthiness),
auto-derivation from the baseline log, the `None` configuration check, and
the mode dispatch. -/
def mainDispatch (args : Args) (baseline : Option (List BaselineRow))
    (pcie : Option (List ℚ)) : MainOutcome :=
  let val_N := args.val_N
  if ¬ truthyInt val_N ∧ ¬ truthyRat args.R ∧ ¬ truthyStr args.baseline_dir then
    .defaults defaultScenarios
  else
    let T := args.T
    let R := args.R
    let alpha := args.alpha.getD 1
    let resolved :=
      if truthyStr args.baseline_dir then
        let constants := derive_constants_from_results baseline pcie
        let val_N := if val_N = none then constants.N else val_N
        let R := if R = none then constants.R else R
        let T := if T = none then
            (if args.mode = Mode.decode then constants.T_decode else constants.T_prefill)
          else T
        (val_N, R, T)
      else (val_N, R, T)
    match resolved with
    | (some n, some r, some t) =>
        .ran (args.mode = Mode.prefill ∨ args.mode = Mode.both)
          (args.mode = Mode.decode ∨ args.mode = Mode.both) n r t alpha
    | _ => .configError

/-! ## Basic lemmas -/

theorem pydiv_of_ne (a b : ℚ) (h : b ≠ 0) : pydiv a b = some (a / b) := by
  simp [pydiv, h]

theorem prefill_E_eq (c : PrefillCalc) :
    c.E = if 0 < c.R then some (PyFloat.fin (c.T / c.R)) else some PyFloat.inf := by
  unfold PrefillCalc.E
  by_cases hR : 0 < c.R
  · simp [hR, pydiv_of_ne _ _ hR.ne']
  · simp [hR]

theorem prefill_alpha_star_eq (c : PrefillCalc) (hT : 0 ≤ c.T) :
    c.alpha_star = some (if 0 < c.R then (c.T / c.R) / (1 + c.T / c.R) else 1) := by
  unfold PrefillCalc.alpha_star
  rw [prefill_E_eq]
  by_cases hR : 0 < c.R
  · have he : (0 : ℚ) ≤ c.T / c.R := div_nonneg hT hR.le
    have h1 : (1 : ℚ) + c.T / c.R ≠ 0 := by positivity
    simp [hR, pydiv_of_ne _ _ h1]
  · simp [hR]

theorem prefill_alpha_star_nonneg (c : PrefillCalc) (hT : 0 ≤ c.T) :
    (0 : ℚ) ≤ if 0 < c.R then (c.T / c.R) / (1 + c.T / c.R) else 1 := by
  by_cases hR : 0 < c.R
  · have he : (0 : ℚ) ≤ c.T / c.R := div_nonneg hT hR.le
    simp only [hR, if_true]
    positivity
  · simp [hR]

theorem prefill_alpha_star_le_one (c : PrefillCalc) (hT : 0 ≤ c.T) :
    (if 0 < c.R then (c.T / c.R) / (1 + c.T / c.R) else 1) ≤ 1 := by
  by_cases hR : 0 < c.R
  · have he : (0 : ℚ) ≤ c.T / c.R := div_nonneg hT hR.le
    simp only [hR, if_true]
    rw [div_le_one (by positivity)]
    linarith
  · simp [hR]

theorem prefill_speedup_actual_eq (c : PrefillCalc) :
    c.speedup_actual =
      some (if 0 < c.ttft_offloaded then PyFloat.fin (c.ttft_vanilla / c.ttft_offloaded)
            else PyFloat.inf) := by
  unfold PrefillCalc.speedup_actual
  by_cases h : 0 < c.ttft_offloaded
  · simp [h, pydiv_of_ne _ _ h.ne']
  · simp [h]

theorem prefill_regime_eq (c : PrefillCalc) (hT : 0 ≤ c.T) :
    c.regime =
      some (if c.alpha ≤ (if 0 < c.R then (c.T / c.R) / (1 + c.T / c.R) else 1)
            then "Compute-Bound" else "I/O-Bound") := by
  unfold PrefillCalc.regime
  rw [prefill_alpha_star_eq c hT]
  rfl

theorem prefill_speedup_theoretical_eq (c : PrefillCalc) (h : c.Valid) :
    c.speedup_theoretical =
      some (if c.alpha ≤ (if 0 < c.R then (c.T / c.R) / (1 + c.T / c.R) else 1) then
              (if c.alpha < 1 then PyFloat.fin (1 / (1 - c.alpha)) else PyFloat.inf)
            else
              (if 0 < c.alpha then PyFloat.fin (c.T / c.R / c.alpha) else PyFloat.fin 0)) := by
  obtain ⟨hN, hR0, hT, hW, ha0, ha1⟩ := h
  unfold PrefillCalc.speedup_theoretical
  rw [prefill_alpha_star_eq c hT, prefill_E_eq]
  set as : ℚ := if 0 < c.R then (c.T / c.R) / (1 + c.T / c.R) else 1 with has
  by_cases hcb : c.alpha ≤ as
  · simp only [Option.some_bind]
    rw [if_pos hcb, if_pos hcb]
    by_cases hlt : c.alpha < 1
    · have h1 : (0 : ℚ) < 1 - c.alpha := by linarith
      rw [if_pos h1, if_pos hlt, pydiv_of_ne _ _ h1.ne']
      rfl
    · have h1 : ¬ (0 : ℚ) < 1 - c.alpha := by
        intro hc; exact hlt (by linarith)
      rw [if_neg h1, if_neg hlt]
  · have hRpos : 0 < c.R := by
      by_contra hR
      have h1 : as = 1 := by simp [has, hR]
      exact hcb (h1 ▸ ha1)
    have hanneg : 0 < c.alpha := by
      have h0 := prefill_alpha_star_nonneg c hT
      rw [← has] at h0
      push_neg at hcb
      linarith
    simp only [Option.some_bind]
    rw [if_neg hcb, if_neg hcb, if_pos hRpos]
    simp only [Option.some_bind]
    rw [if_pos hanneg, if_pos hanneg, pydiv_of_ne _ _ hanneg.ne']
    rfl

theorem prefill_analyze_eq (c : PrefillCalc) (h : c.Valid) :
    ∃ as sa st, c.alpha_star = some as ∧ c.speedup_actual = some sa ∧
      c.speedup_theoretical = some st ∧
      c.analyze_speedup = some
        { Phase := "PREFILL"
          Regime := if c.alpha ≤ as then "Compute-Bound" else "I/O-Bound"
          Metric := "Speedup"
          Actual := roundF2 sa
          Theoretical := roundF2 st
          AlphaCurrentPct := pct1 c.alpha
          AlphaStarPct := pct1 as } := by
  have hT : 0 ≤ c.T := h.2.2.1
  refine ⟨_, _, _, prefill_alpha_star_eq c hT, prefill_speedup_actual_eq c,
    prefill_speedup_theoretical_eq c h, ?_⟩
  unfold PrefillCalc.analyze_speedup
  rw [prefill_alpha_star_eq c hT, prefill_speedup_actual_eq c,
    prefill_speedup_theoretical_eq c h]
  rfl

theorem decode_slowdown_eq (c : DecodeCalc) :
    c.slowdown =
      some (if 0 < c.T then PyFloat.fin (c.tpot_offloaded / c.T) else PyFloat.inf) := by
  unfold DecodeCalc.slowdown DecodeCalc.tpot_vanilla
  by_cases h : 0 < c.T
  · simp [h, pydiv_of_ne _ _ h.ne']
  · simp [h]

theorem decode_alpha_star_eq (c : DecodeCalc) :
    c.alpha_star =
      some (if 0 < c.L * c.R then PyFloat.fin (c.T / (c.L * c.R)) else PyFloat.inf) := by
  unfold DecodeCalc.alpha_star
  by_cases h : 0 < c.L * c.R
  · simp [h, pydiv_of_ne _ _ h.ne']
  · simp [h]

theorem decode_regime_eq (c : DecodeCalc) :
    c.regime =
      some (if qleF c.alpha (if 0 < c.L * c.R then PyFloat.fin (c.T / (c.L * c.R))
                             else PyFloat.inf)
            then "Compute-Bound (Safe)" else "I/O-Bound (Laggy)") := by
  unfold DecodeCalc.regime
  rw [decode_alpha_star_eq]
  rfl

theorem decode_analyze_eq (c : DecodeCalc) :
    ∃ as, c.alpha_star = some as ∧
      c.analyze = some
        { Phase := "DECODE"
          LContext := c.L
          Regime := if qleF c.alpha as then "Compute-Bound (Safe)" else "I/O-Bound (Laggy)"
          Metric := "Slowdown"
          TPOT_Vanilla := pyRound 2 c.tpot_vanilla
          TPOT_Offloaded := pyRound 2 c.tpot_offloaded
          AlphaCurrentPct := pct1 c.alpha
          AlphaStarPct := pct1F as } := by
  refine ⟨_, decode_alpha_star_eq c, ?_⟩
  unfold DecodeCalc.analyze
  rw [decode_slowdown_eq, decode_alpha_star_eq]
  rfl

/-! ## Claim theorems -/

/-- C1: for every finite non-negative `N, R, T, W` and `alpha` in `[0,1]`,
the prefill model classifies `Compute-Bound` with theoretical ratio
`1 / (1 - alpha)` (read in the extended reals: `inf` at `alpha = 1`)
whenever `alpha` is at most the critical fraction
`alpha_star = E / (1 + E)` with `E = T / R` (`alpha_star = 1` when
`R = 0`), and classifies `I/O-Bound` with theoretical ratio `E / alpha`
(`0` if `alpha = 0`) whenever `alpha` exceeds it. -/
theorem prefill_regime_classification (c : PrefillCalc) (h : c.Valid) :
    c.alpha_star = some (if 0 < c.R then (c.T / c.R) / (1 + c.T / c.R) else 1) ∧
    ((c.alpha ≤ (if 0 < c.R then (c.T / c.R) / (1 + c.T / c.R) else 1) →
        c.regime = some "Compute-Bound" ∧
        c.speedup_theoretical =
          some (if c.alpha < 1 then PyFloat.fin (1 / (1 - c.alpha)) else PyFloat.inf)) ∧
     ((if 0 < c.R then (c.T / c.R) / (1 + c.T / c.R) else 1) < c.alpha →
        c.regime = some "I/O-Bound" ∧
        c.speedup_theoretical =
          some (if 0 < c.alpha then PyFloat.fin (c.T / c.R / c.alpha)
                else PyFloat.fin 0))) := by
  have hT : 0 ≤ c.T := h.2.2.1
  refine ⟨prefill_alpha_star_eq c hT, ?_, ?_⟩
  · intro hcb
    rw [prefill_regime_eq c hT, prefill_speedup_theoretical_eq c h,
      if_pos hcb, if_pos hcb]
    exact ⟨rfl, rfl⟩
  · intro hio
    rw [prefill_regime_eq c hT, prefill_speedup_theoretical_eq c h,
      if_neg (not_le.mpr hio), if_neg (not_le.mpr hio)]
    exact ⟨rfl, rfl⟩

/-- Witness for C1, at the two built-in prefill scenarios:
`N=2000, R=41, T=110, alpha=0.6` is compute-bound with theoretical ratio
`2.5`, and `N=2000, R=50, T=100, alpha=0.9` is I/O-bound with theoretical
ratio `E / alpha = 20/9`. -/
theorem prefill_regime_classification_witness :
    PrefillCalc.Valid { N := 2000, R := 41, T := 110, alpha := 3/5 } ∧
    PrefillCalc.Valid { N := 2000, R := 50, T := 100, alpha := 9/10 } ∧
    (PrefillCalc.regime { N := 2000, R := 41, T := 110, alpha := 3/5 }
        = some "Compute-Bound" ∧
      PrefillCalc.speedup_theoretical { N := 2000, R := 41, T := 110, alpha := 3/5 }
        = some (PyFloat.fin (5/2))) ∧
    (PrefillCalc.regime { N := 2000, R := 50, T := 100, alpha := 9/10 }
        = some "I/O-Bound" ∧
      PrefillCalc.speedup_theoretical { N := 2000, R := 50, T := 100, alpha := 9/10 }
        = some (PyFloat.fin (20/9))) := by
  have h1 : PrefillCalc.Valid { N := 2000, R := 41, T := 110, alpha := 3/5 } := by
    norm_num [PrefillCalc.Valid]
  have h2 : PrefillCalc.Valid { N := 2000, R := 50, T := 100, alpha := 9/10 } := by
    norm_num [PrefillCalc.Valid]
  have hc1 := (prefill_regime_classification _ h1).2.1 (by norm_num)
  have hc2 := (prefill_regime_classification _ h2).2.2 (by norm_num)
  refine ⟨h1, h2, ⟨hc1.1, ?_⟩, ⟨hc2.1, ?_⟩⟩
  · rw [hc1.2]; norm_num
  · rw [hc2.2]; norm_num

/-- C2: for every finite non-negative `L, R, T` and `alpha` in `[0,1]`,
the decode model computes `tpot_offloaded = max(T, alpha*L*R)`,
`slowdown = tpot_offloaded / T` when `T > 0` (else `inf`),
`alpha_star = T / (L*R)` when `L*R > 0` (else `inf`), and classifies
`Compute-Bound (Safe)` exactly when `alpha <= alpha_star` and
`I/O-Bound (Laggy)` exactly when `alpha > alpha_star` (an infinite
`alpha_star` is always safe).  The scenario
`L=8000, R=0.1, T=200, alpha=0.8` is instantiated in the witness. -/
theorem decode_model_formulas (c : DecodeCalc) (_h : c.Valid) :
    c.tpot_offloaded = max c.T (c.alpha * c.L * c.R) ∧
    c.slowdown =
      some (if 0 < c.T then PyFloat.fin (c.tpot_offloaded / c.T) else PyFloat.inf) ∧
    c.alpha_star =
      some (if 0 < c.L * c.R then PyFloat.fin (c.T / (c.L * c.R)) else PyFloat.inf) ∧
    (0 < c.L * c.R →
      (c.regime = some "Compute-Bound (Safe)" ↔ c.alpha ≤ c.T / (c.L * c.R)) ∧
      (c.regime = some "I/O-Bound (Laggy)" ↔ c.T / (c.L * c.R) < c.alpha)) ∧
    (¬ 0 < c.L * c.R → c.regime = some "Compute-Bound (Safe)") := by
  refine ⟨rfl, decode_slowdown_eq c, decode_alpha_star_eq c, ?_, ?_⟩
  · intro hLR
    rw [decode_regime_eq, if_pos hLR]
    constructor
    · constructor
      · intro hr
        by_contra hgt
        rw [show qleF c.alpha (PyFloat.fin (c.T / (c.L * c.R))) = false by
              simp [qleF, hgt]] at hr
        simp at hr
      · intro hle
        rw [show qleF c.alpha (PyFloat.fin (c.T / (c.L * c.R))) = true by
              simp [qleF, hle]]
        rfl
    · constructor
      · intro hr
        by_contra hgt
        push_neg at hgt
        rw [show qleF c.alpha (PyFloat.fin (c.T / (c.L * c.R))) = true by
              simp [qleF, hgt]] at hr
        simp at hr
      · intro hlt
        rw [show qleF c.alpha (PyFloat.fin (c.T / (c.L * c.R))) = false by
              simp [qleF, not_le.mpr hlt]]
        rfl
  · intro hLR
    rw [decode_regime_eq, if_neg hLR]
    rfl

/-- Witness for C2, at the long-context decode scenario
`L=8000, R=0.1, T=200, alpha=0.8`: `alpha_star = 0.25`, regime
`I/O-Bound (Laggy)`, `tpot_offloaded = 640`, `slowdown = 3.2`. -/
theorem decode_model_formulas_witness :
    DecodeCalc.Valid { L := 8000, R := 1/10, T := 200, alpha := 4/5 } ∧
    DecodeCalc.alpha_star { L := 8000, R := 1/10, T := 200, alpha := 4/5 }
      = some (PyFloat.fin (1/4)) ∧
    DecodeCalc.regime { L := 8000, R := 1/10, T := 200, alpha := 4/5 }
      = some "I/O-Bound (Laggy)" ∧
    DecodeCalc.tpot_offloaded { L := 8000, R := 1/10, T := 200, alpha := 4/5 } = 640 ∧
    DecodeCalc.slowdown { L := 8000, R := 1/10, T := 200, alpha := 4/5 }
      = some (PyFloat.fin (16/5)) := by
  have hv : DecodeCalc.Valid { L := 8000, R := 1/10, T := 200, alpha := 4/5 } := by
    norm_num [DecodeCalc.Valid]
  have hoff : DecodeCalc.tpot_offloaded { L := 8000, R := 1/10, T := 200, alpha := 4/5 }
      = 640 := by
    rw [(decode_model_formulas _ hv).1, max_def]
    norm_num
  have hc := decode_model_formulas _ hv
  refine ⟨hv, ?_, ?_, hoff, ?_⟩
  · rw [hc.2.2.1]; norm_num
  · rw [(hc.2.2.2.1 (by norm_num)).2]; norm_num
  · rw [hc.2.1, hoff]; norm_num

/-- C3: both models are total on the legal input domain: for finite
non-negative inputs with `alpha` in `[0,1]`, the prefill analysis and the
decode analysis return a result record (`some _`, i.e. no
`ZeroDivisionError` is ever raised — every zero-denominator case is
absorbed into an `inf`/`0` branch), and by construction every numeric
field of the records is a finite rational or `inf`. -/
theorem models_total_on_legal_domain (cp : PrefillCalc) (cd : DecodeCalc)
    (hp : cp.Valid) (_hd : cd.Valid) :
    (∃ rp, cp.analyze_speedup = some rp) ∧ (∃ rd, cd.analyze = some rd) := by
  constructor
  · obtain ⟨as, sa, st, _, _, _, hrec⟩ := prefill_analyze_eq cp hp
    exact ⟨_, hrec⟩
  · obtain ⟨as, _, hrec⟩ := decode_analyze_eq cd
    exact ⟨_, hrec⟩

/-- Witness for C3, at fully degenerate inputs (`N = L = 0`, `R = 0`,
`T = 0`, `alpha = 1`): both analyses still return a record. -/
theorem models_total_on_legal_domain_witness :
    PrefillCalc.Valid { N := 0, R := 0, T := 0, alpha := 1 } ∧
    DecodeCalc.Valid { L := 0, R := 0, T := 0, alpha := 1 } ∧
    ((∃ rp, PrefillCalc.analyze_speedup { N := 0, R := 0, T := 0, alpha := 1 } = some rp) ∧
     (∃ rd, DecodeCalc.analyze { L := 0, R := 0, T := 0, alpha := 1 } = some rd)) := by
  have hp : PrefillCalc.Valid { N := 0, R := 0, T := 0, alpha := 1 } := by
    norm_num [PrefillCalc.Valid]
  have hd : DecodeCalc.Valid { L := 0, R := 0, T := 0, alpha := 1 } := by
    norm_num [DecodeCalc.Valid]
  exact ⟨hp, hd, models_total_on_legal_domain _ _ hp hd⟩

/-- C4: the prefill offloaded cost is the maximum (not the sum) of the
three overlapped costs `alpha*N*R`, `(1-alpha)*N*T` and `(1-alpha)*N*W`,
and the actual ratio is `N*T / ttft_offloaded` when `ttft_offloaded > 0`,
else `inf`; in particular `N = 0` yields `inf` rather than a fault. -/
theorem prefill_offloaded_max_and_actual_ratio (c : PrefillCalc) :
    c.ttft_offloaded =
      max (c.alpha * c.N * c.R)
        (max ((1 - c.alpha) * c.N * c.T) ((1 - c.alpha) * c.N * c.W)) ∧
    c.speedup_actual =
      some (if 0 < c.ttft_offloaded then PyFloat.fin (c.N * c.T / c.ttft_offloaded)
            else PyFloat.inf) ∧
    (c.N = 0 → c.speedup_actual = some PyFloat.inf) := by
  refine ⟨rfl, prefill_speedup_actual_eq c, ?_⟩
  intro hN
  have hoff : c.ttft_offloaded = 0 := by
    simp [PrefillCalc.ttft_offloaded, PrefillCalc.retrieval_cost,
      PrefillCalc.compute_cost, PrefillCalc.write_cost, hN]
  rw [prefill_speedup_actual_eq c, hoff]
  norm_num

/-- Witness for C4, at `N = 0` (with `R = 3, T = 7, alpha = 1/2, W = 0`):
the offloaded cost is `0` and the actual ratio reports `inf`. -/
theorem prefill_offloaded_max_and_actual_ratio_witness :
    PrefillCalc.ttft_offloaded { N := 0, R := 3, T := 7, alpha := 1/2 } =
      max ((1/2 : ℚ) * 0 * 3) (max ((1 - 1/2) * 0 * 7) ((1 - 1/2) * 0 * 0)) ∧
    ((0 : ℚ) = 0 →
      PrefillCalc.speedup_actual { N := 0, R := 3, T := 7, alpha := 1/2 }
        = some PyFloat.inf) := by
  have hc := prefill_offloaded_max_and_actual_ratio
    { N := 0, R := 3, T := 7, alpha := 1/2 }
  exact ⟨hc.1, fun _ => hc.2.2 rfl⟩

/-- C5: the prefill critical fraction always lies in `[0,1]`: for
non-negative `T` and positive `R`, `alpha_star = (T/R) / (1 + T/R)` is in
`[0,1]` and equals `0` when `T = 0`, while `R = 0` yields exactly
`alpha_star = 1`. -/
theorem prefill_alpha_star_unit_interval (c : PrefillCalc) (hT : 0 ≤ c.T) :
    (0 < c.R →
      c.alpha_star = some ((c.T / c.R) / (1 + c.T / c.R)) ∧
      0 ≤ (c.T / c.R) / (1 + c.T / c.R) ∧
      (c.T / c.R) / (1 + c.T / c.R) ≤ 1 ∧
      (c.T = 0 → (c.T / c.R) / (1 + c.T / c.R) = 0)) ∧
    (c.R = 0 → c.alpha_star = some 1) := by
  constructor
  · intro hR
    have h0 := prefill_alpha_star_nonneg c hT
    have h1 := prefill_alpha_star_le_one c hT
    rw [if_pos hR] at h0 h1
    refine ⟨?_, h0, h1, ?_⟩
    · rw [prefill_alpha_star_eq c hT, if_pos hR]
    · intro hT0
      rw [hT0]
      norm_num
  · intro hR0
    rw [prefill_alpha_star_eq c hT, if_neg (by rw [hR0]; exact lt_irrefl 0)]

/-- Witness for C5, at `T = 110, R = 41` (so `alpha_star = 110/151`) and
at `R = 0` (so `alpha_star = 1`). -/
theorem prefill_alpha_star_unit_interval_witness :
    ((0 : ℚ) ≤ 110 ∧
      PrefillCalc.alpha_star { N := 2000, R := 41, T := 110, alpha := 3/5 }
        = some (110/151) ∧
      (0 : ℚ) ≤ 110/151 ∧ (110/151 : ℚ) ≤ 1) ∧
    ((0 : ℚ) ≤ 5 ∧
      PrefillCalc.alpha_star { N := 7, R := 0, T := 5, alpha := 1 } = some 1) := by
  have hc1 := (prefill_alpha_star_unit_interval
    { N := 2000, R := 41, T := 110, alpha := 3/5 } (by norm_num)).1 (by norm_num)
  have hc2 := (prefill_alpha_star_unit_interval
    { N := 7, R := 0, T := 5, alpha := 1 } (by norm_num)).2 (by norm_num)
  refine ⟨⟨by norm_num, ?_, by norm_num, by norm_num⟩, ⟨by norm_num, hc2⟩⟩
  rw [hc1.1]
  norm_num

/-- Counterexample to C6 as stated: at `alpha = 0` with
`N = 1, R = 1, T = 1, W = 2` (all non-negative, `alpha` in `[0,1]`), the
prefill offloaded cost is the write cost `N*W = 2`, not the vanilla cost
`N*T = 1`, and the actual ratio is `1/2`, not `1.0`. -/
theorem alpha_zero_identity_cex :
    PrefillCalc.alpha { N := 1, R := 1, T := 1, alpha := 0, W := 2 } = 0 ∧
    PrefillCalc.ttft_vanilla { N := 1, R := 1, T := 1, alpha := 0, W := 2 } = 1 ∧
    PrefillCalc.ttft_offloaded { N := 1, R := 1, T := 1, alpha := 0, W := 2 } = 2 ∧
    PrefillCalc.speedup_actual { N := 1, R := 1, T := 1, alpha := 0, W := 2 }
      = some (PyFloat.fin (1/2)) ∧
    PyFloat.fin (1/2) ≠ PyFloat.fin 1 := by
  have hoff : PrefillCalc.ttft_offloaded { N := 1, R := 1, T := 1, alpha := 0, W := 2 }
      = 2 := by
    rw [(prefill_offloaded_max_and_actual_ratio _).1]
    rw [max_def, max_def]
    norm_num
  refine ⟨rfl, by norm_num [PrefillCalc.ttft_vanilla], hoff, ?_, by norm_num⟩
  rw [prefill_speedup_actual_eq, hoff, if_pos (by norm_num)]
  norm_num [PrefillCalc.ttft_vanilla]

/-- C6 as amended: at `alpha = 0` the offloaded metric equals the vanilla
baseline and the actual ratio is exactly `1.0`, provided the degenerate
cases exhibited by the counterexample are excluded: for prefill this needs
`N > 0`, `T > 0` and `W ≤ T` (the write-back cost must not dominate the
compute cost), and for decode it needs `T > 0`. -/
theorem alpha_zero_identity_amended (cp : PrefillCalc) (cd : DecodeCalc)
    (hpa : cp.alpha = 0) (hpN : 0 < cp.N) (hpT : 0 < cp.T) (hpW : cp.W ≤ cp.T)
    (hda : cd.alpha = 0) (hdT : 0 < cd.T) :
    cp.ttft_offloaded = cp.N * cp.T ∧ cp.ttft_vanilla = cp.N * cp.T ∧
    cp.speedup_actual = some (PyFloat.fin 1) ∧
    cd.tpot_offloaded = cd.T ∧ cd.tpot_vanilla = cd.T ∧
    cd.slowdown = some (PyFloat.fin 1) := by
  have hoff : cp.ttft_offloaded = cp.N * cp.T := by
    unfold PrefillCalc.ttft_offloaded PrefillCalc.retrieval_cost
      PrefillCalc.compute_cost PrefillCalc.write_cost
    rw [hpa]
    have hW : cp.N * cp.W ≤ cp.N * cp.T := by
      exact mul_le_mul_of_nonneg_left hpW hpN.le
    have hNT : (0 : ℚ) ≤ cp.N * cp.T := by positivity
    rw [show (1 - (0:ℚ)) * cp.N * cp.T = cp.N * cp.T by ring,
      show (1 - (0:ℚ)) * cp.N * cp.W = cp.N * cp.W by ring,
      show (0:ℚ) * cp.N * cp.R = 0 by ring]
    rw [max_eq_left hW, max_eq_right hNT]
  have hdoff : cd.tpot_offloaded = cd.T := by
    unfold DecodeCalc.tpot_offloaded DecodeCalc.compute_time DecodeCalc.io_time
    rw [hda, show (0:ℚ) * cd.L * cd.R = 0 by ring, max_eq_left hdT.le]
  refine ⟨hoff, rfl, ?_, hdoff, rfl, ?_⟩
  · rw [prefill_speedup_actual_eq, hoff]
    have hpos : (0 : ℚ) < cp.N * cp.T := by positivity
    rw [if_pos hpos, PrefillCalc.ttft_vanilla, div_self hpos.ne']
  · rw [decode_slowdown_eq, hdoff, if_pos hdT, div_self hdT.ne']

/-- Witness for the amended C6: prefill `N=2, R=3, T=5, alpha=0, W=4` and
decode `L=7, R=3, T=5, alpha=0` both report a ratio of exactly `1`. -/
theorem alpha_zero_identity_amended_witness :
    (PrefillCalc.alpha { N := 2, R := 3, T := 5, alpha := 0, W := 4 } = 0 ∧
      (0:ℚ) < 2 ∧ (0:ℚ) < 5 ∧ (4:ℚ) ≤ 5 ∧
      DecodeCalc.alpha { L := 7, R := 3, T := 5, alpha := 0 } = 0 ∧ (0:ℚ) < 5) ∧
    PrefillCalc.speedup_actual { N := 2, R := 3, T := 5, alpha := 0, W := 4 }
      = some (PyFloat.fin 1) ∧
    DecodeCalc.slowdown { L := 7, R := 3, T := 5, alpha := 0 }
      = some (PyFloat.fin 1) := by
  have hc := alpha_zero_identity_amended
    { N := 2, R := 3, T := 5, alpha := 0, W := 4 }
    { L := 7, R := 3, T := 5, alpha := 0 }
    rfl (by norm_num) (by norm_num) (by norm_num) rfl (by norm_num)
  exact ⟨⟨rfl, by norm_num, by norm_num, by norm_num, rfl, by norm_num⟩,
    hc.2.2.1, hc.2.2.2.2.2⟩

/-- Counterexample to C7 as stated: at the legal prefill input
`N=1000, R=50, T=100, alpha=0.9` the model's actual ratio is `20/9`, but
the record it returns reports `Actual` rounded to two decimals (`2.22`),
so the `actual_ratio` field is not recoverable without loss of precision
from the structured record. -/
theorem record_lossless_cex :
    (PrefillCalc.analyze_speedup
        { N := 1000, R := 50, T := 100, alpha := 9/10 }).map PrefillRecord.Actual
      = some (PyFloat.fin (111/50)) ∧
    PrefillCalc.speedup_actual { N := 1000, R := 50, T := 100, alpha := 9/10 }
      = some (PyFloat.fin (20/9)) ∧
    PyFloat.fin (111/50) ≠ PyFloat.fin (20/9) := by
  have hv : PrefillCalc.Valid { N := 1000, R := 50, T := 100, alpha := 9/10 } := by
    norm_num [PrefillCalc.Valid]
  have hoff : PrefillCalc.ttft_offloaded { N := 1000, R := 50, T := 100, alpha := 9/10 }
      = 45000 := by
    rw [(prefill_offloaded_max_and_actual_ratio _).1, max_def, max_def]
    norm_num
  have hsa : PrefillCalc.speedup_actual { N := 1000, R := 50, T := 100, alpha := 9/10 }
      = some (PyFloat.fin (20/9)) := by
    rw [prefill_speedup_actual_eq, hoff, if_pos (by norm_num)]
    norm_num [PrefillCalc.ttft_vanilla]
  obtain ⟨as, sa, st, has, hsa2, hst, hrec⟩ := prefill_analyze_eq _ hv
  have hsa3 : sa = PyFloat.fin (20/9) := by
    rw [hsa] at hsa2
    exact (Option.some_injective _ hsa2).symm
  refine ⟨?_, hsa, by norm_num⟩
  rw [hrec]
  simp only [Option.map_some]
  rw [hsa3]
  show some (roundF2 (PyFloat.fin (20/9))) = some (PyFloat.fin (111/50))
  rw [show roundF2 (PyFloat.fin (20/9)) = PyFloat.fin (pyRound 2 (20/9)) from rfl]
  norm_num [pyRound, roundHalfEven]

/-- C7 as amended: each model returns a structured record, but not every
`AnalysisResult` field losslessly: the prefill record exposes the phase,
the regime, the metric label, the actual and theoretical ratios rounded to
two decimals, and the current and critical alphas as `.1%`-formatted
percentages, and omits the baseline and offloaded TTFT values entirely;
the decode record exposes the phase, the context length, the regime, the
metric label, the vanilla and offloaded TPOT rounded to two decimals, and
the formatted alphas.  Rounding and percent formatting lose precision (see
the counterexample). -/
theorem record_fields_amended (cp : PrefillCalc) (cd : DecodeCalc)
    (hp : cp.Valid) (_hd : cd.Valid) :
    (∃ as sa st, cp.alpha_star = some as ∧ cp.speedup_actual = some sa ∧
      cp.speedup_theoretical = some st ∧
      cp.analyze_speedup = some
        { Phase := "PREFILL"
          Regime := if cp.alpha ≤ as then "Compute-Bound" else "I/O-Bound"
          Metric := "Speedup"
          Actual := roundF2 sa
          Theoretical := roundF2 st
          AlphaCurrentPct := pct1 cp.alpha
          AlphaStarPct := pct1 as }) ∧
    (∃ asd, cd.alpha_star = some asd ∧
      cd.analyze = some
        { Phase := "DECODE"
          LContext := cd.L
          Regime := if qleF cd.alpha asd then "Compute-Bound (Safe)"
                    else "I/O-Bound (Laggy)"
          Metric := "Slowdown"
          TPOT_Vanilla := pyRound 2 cd.tpot_vanilla
          TPOT_Offloaded := pyRound 2 cd.tpot_offloaded
          AlphaCurrentPct := pct1 cd.alpha
          AlphaStarPct := pct1F asd }) :=
  ⟨prefill_analyze_eq cp hp, decode_analyze_eq cd⟩

/-- Witness for the amended C7, at the prefill input
`N=1000, R=50, T=100, alpha=0.9` and the decode input
`L=8000, R=0.1, T=200, alpha=0.8`. -/
theorem record_fields_amended_witness :
    PrefillCalc.Valid { N := 1000, R := 50, T := 100, alpha := 9/10 } ∧
    DecodeCalc.Valid { L := 8000, R := 1/10, T := 200, alpha := 4/5 } ∧
    ((∃ as sa st,
        PrefillCalc.alpha_star { N := 1000, R := 50, T := 100, alpha := 9/10 }
          = some as ∧
        PrefillCalc.speedup_actual { N := 1000, R := 50, T := 100, alpha := 9/10 }
          = some sa ∧
        PrefillCalc.speedup_theoretical { N := 1000, R := 50, T := 100, alpha := 9/10 }
          = some st ∧
        PrefillCalc.analyze_speedup { N := 1000, R := 50, T := 100, alpha := 9/10 }
          = some
          { Phase := "PREFILL"
            Regime := if (9/10 : ℚ) ≤ as then "Compute-Bound" else "I/O-Bound"
            Metric := "Speedup"
            Actual := roundF2 sa
            Theoretical := roundF2 st
            AlphaCurrentPct := pct1 (9/10)
            AlphaStarPct := pct1 as }) ∧
     (∃ asd,
        DecodeCalc.alpha_star { L := 8000, R := 1/10, T := 200, alpha := 4/5 }
          = some asd ∧
        DecodeCalc.analyze { L := 8000, R := 1/10, T := 200, alpha := 4/5 }
          = some
          { Phase := "DECODE"
            LContext := 8000
            Regime := if qleF (4/5) asd then "Compute-Bound (Safe)"
                      else "I/O-Bound (Laggy)"
            Metric := "Slowdown"
            TPOT_Vanilla :=
              pyRound 2 (DecodeCalc.tpot_vanilla { L := 8000, R := 1/10, T := 200, alpha := 4/5 })
            TPOT_Offloaded :=
              pyRound 2 (DecodeCalc.tpot_offloaded { L := 8000, R := 1/10, T := 200, alpha := 4/5 })
            AlphaCurrentPct := pct1 (4/5)
            AlphaStarPct := pct1F asd })) := by
  have hp : PrefillCalc.Valid { N := 1000, R := 50, T := 100, alpha := 9/10 } := by
    norm_num [PrefillCalc.Valid]
  have hd : DecodeCalc.Valid { L := 8000, R := 1/10, T := 200, alpha := 4/5 } := by
    norm_num [DecodeCalc.Valid]
  exact ⟨hp, hd, record_fields_amended _ _ hp hd⟩

/-- Counterexample to C8 as stated: for the readable baseline log with two
rows of `prompt_len` `1` and `2`, the mean prompt length is `3/2`, but the
deriver returns `N = 1` (Python `int(...)` truncation), not the mean. -/
theorem derive_constants_cex :
    (derive_constants_from_results
        (some [{ prompt_len := 1, ttft := 0, avg_itl := 0 },
               { prompt_len := 2, ttft := 0, avg_itl := 0 }]) none).N = some 1 ∧
    colMean ([{ prompt_len := 1, ttft := 0, avg_itl := 0 },
              { prompt_len := 2, ttft := 0, avg_itl := 0 }].map BaselineRow.prompt_len)
      = 3/2 ∧
    ((1 : ℚ) ≠ 3/2) := by
  have hm : colMean ([{ prompt_len := 1, ttft := 0, avg_itl := 0 },
      { prompt_len := 2, ttft := 0, avg_itl := 0 }].map BaselineRow.prompt_len)
      = 3/2 := by
    norm_num [colMean, List.sum]
  refine ⟨?_, hm, by norm_num⟩
  show some (pyInt (colMean ([{ prompt_len := 1, ttft := 0, avg_itl := 0 },
    { prompt_len := 2, ttft := 0, avg_itl := 0 }].map BaselineRow.prompt_len))) = some 1
  rw [hm]
  norm_num [pyInt]

/-- C8 as amended: for every readable, non-empty baseline log the deriver
returns `N = int(mean(prompt_len))` (truncation toward zero, not the exact
mean), `T_prefill = mean(ttft) * 1e6 / mean(prompt_len)` (using the
untruncated mean; `0` when that mean is not positive),
`T_decode = mean(avg_itl) * 1e6`, and `R` equal to the fixed fallback
constant `50`; when no baseline log is found it returns an empty result
with a non-fatal warning rather than raising. -/
theorem derive_constants_amended (rows : List BaselineRow) (p : Option (List ℚ))
    (_h : rows ≠ []) :
    derive_constants_from_results (some rows) p =
      { N := some (pyInt (colMean (rows.map BaselineRow.prompt_len)))
        T_prefill := some (if 0 < colMean (rows.map BaselineRow.prompt_len) then
            colMean (rows.map BaselineRow.ttft) * 1000000
              / colMean (rows.map BaselineRow.prompt_len)
          else 0)
        T_decode := some (colMean (rows.map BaselineRow.avg_itl) * 1000000)
        R := some 50
        warned := false } ∧
    derive_constants_from_results none p =
      { N := none, T_prefill := none, T_decode := none, R := none, warned := true } :=
  ⟨rfl, rfl⟩

/-- Witness for the amended C8, at the two-row log of the counterexample:
`N = 1`, `T_prefill = 0`, `T_decode = 0`, `R = 50`, no warning; and the
missing-log case returns the empty warned result. -/
theorem derive_constants_amended_witness :
    ([({ prompt_len := 1, ttft := 0, avg_itl := 0 } : BaselineRow),
      { prompt_len := 2, ttft := 0, avg_itl := 0 }] ≠ []) ∧
    derive_constants_from_results
        (some [{ prompt_len := 1, ttft := 0, avg_itl := 0 },
               { prompt_len := 2, ttft := 0, avg_itl := 0 }]) none =
      { N := some 1, T_prefill := some 0, T_decode := some 0, R := some 50,
        warned := false } ∧
    derive_constants_from_results none none =
      { N := none, T_prefill := none, T_decode := none, R := none, warned := true } := by
  have hc := derive_constants_amended
    [{ prompt_len := 1, ttft := 0, avg_itl := 0 },
     { prompt_len := 2, ttft := 0, avg_itl := 0 }] none (by simp)
  refine ⟨by simp, ?_, hc.2⟩
  rw [hc.1]
  have hm : colMean ([{ prompt_len := 1, ttft := 0, avg_itl := 0 },
      { prompt_len := 2, ttft := 0, avg_itl := 0 }].map BaselineRow.prompt_len)
      = 3/2 := by
    norm_num [colMean, List.sum]
  have hmt : colMean ([{ prompt_len := 1, ttft := 0, avg_itl := 0 },
      { prompt_len := 2, ttft := 0, avg_itl := 0 }].map BaselineRow.ttft) = 0 := by
    norm_num [colMean, List.sum]
  have hmi : colMean ([{ prompt_len := 1, ttft := 0, avg_itl := 0 },
      { prompt_len := 2, ttft := 0, avg_itl := 0 }].map BaselineRow.avg_itl) = 0 := by
    norm_num [colMean, List.sum]
  rw [hm, hmt, hmi]
  norm_num [pyInt]

/-- C9: the entry point tests the `N`/`L` and `R` arguments by Python
truthiness, not by absence: whenever the resolved `N`/`L` value is `0` or
missing, `R` is `0` or missing, and no baseline directory is supplied, it
does not report a configuration error but runs the five built-in default
demonstration scenarios and exits with status `0` — in particular for an
explicit `--N 0` with no `--R`. -/
theorem main_truthiness_defaults (args : Args) (baseline : Option (List BaselineRow))
    (pcie : Option (List ℚ))
    (hN : truthyInt args.val_N = false)
    (hR : truthyRat args.R = false)
    (hB : truthyStr args.baseline_dir = false) :
    mainDispatch args baseline pcie = .defaults defaultScenarios ∧
    (mainDispatch args baseline pcie).exitCode = 0 ∧
    defaultScenarios.length = 5 := by
  have hmain : mainDispatch args baseline pcie = .defaults defaultScenarios := by
    unfold mainDispatch
    rw [if_pos]
    simp [hN, hR, hB]
  exact ⟨hmain, by rw [hmain]; rfl, rfl⟩

/-- Witness for C9: `--N 0` with no `--R` and no baseline directory (mode
`both`, no other flags) runs the default scenarios and exits `0`. -/
theorem main_truthiness_defaults_witness :
    truthyInt (Args.val_N { mode := .both, N := some 0, L := none, R := none, T := none, alpha := none, baseline_dir := none, offload_dir := none }) = false ∧
    truthyRat none = false ∧ truthyStr none = false ∧
    mainDispatch { mode := .both, N := some 0, L := none, R := none, T := none, alpha := none, baseline_dir := none, offload_dir := none } none none
      = .defaults defaultScenarios ∧
    (mainDispatch { mode := .both, N := some 0, L := none, R := none, T := none, alpha := none, baseline_dir := none, offload_dir := none } none none).exitCode
      = 0 := by
  have hc := main_truthiness_defaults
    { mode := .both, N := some 0, L := none, R := none, T := none, alpha := none, baseline_dir := none, offload_dir := none } none none
    (by simp [Args.val_N, truthyInt]) rfl rfl
  exact ⟨by simp [Args.val_N, truthyInt], rfl, rfl, hc.1, hc.2.1⟩

theorem mainDispatch_baseline_derived (args : Args) (rows : List BaselineRow)
    (pcie : Option (List ℚ)) (hB : truthyStr args.baseline_dir = true)
    (hT : args.T = none) :
    ∃ n r, mainDispatch args (some rows) pcie =
      .ran (decide (args.mode = Mode.prefill ∨ args.mode = Mode.both))
        (decide (args.mode = Mode.decode ∨ args.mode = Mode.both)) n r
        (if args.mode = Mode.decode then colMean (rows.map BaselineRow.avg_itl) * 1000000
         else if 0 < colMean (rows.map BaselineRow.prompt_len) then
           colMean (rows.map BaselineRow.ttft) * 1000000
             / colMean (rows.map BaselineRow.prompt_len)
         else 0)
        (args.alpha.getD 1) := by
  have hcond : ¬ (¬ truthyInt args.val_N ∧ ¬ truthyRat args.R
      ∧ ¬ truthyStr args.baseline_dir) := by
    simp [hB]
  obtain ⟨n, hn⟩ : ∃ n, (if args.val_N = none
      then (derive_constants_from_results (some rows) pcie).N else args.val_N)
      = some n := by
    by_cases hv : args.val_N = none
    · refine ⟨pyInt (colMean (rows.map (fun x => x.prompt_len))), ?_⟩
      rw [if_pos hv]
      rfl
    · obtain ⟨k, hk⟩ := Option.ne_none_iff_exists'.mp hv
      exact ⟨k, by simp [hk]⟩
  obtain ⟨r, hr⟩ : ∃ r, (if args.R = none
      then (derive_constants_from_results (some rows) pcie).R else args.R)
      = some r := by
    by_cases hv : args.R = none
    · refine ⟨50, ?_⟩
      rw [if_pos hv]
      rfl
    · obtain ⟨k, hk⟩ := Option.ne_none_iff_exists'.mp hv
      exact ⟨k, by simp [hk]⟩
  refine ⟨n, r, ?_⟩
  unfold mainDispatch
  rw [if_neg hcond]
  simp only [hB, if_true, hT]
  rw [hn, hr]
  by_cases hm : args.mode = Mode.decode
  · simp [hm, derive_constants_from_results]
  · simp [hm, derive_constants_from_results]

/-- C10: when `T` is auto-derived from a baseline log rather than given
explicitly, the derived `T_prefill` is selected whenever the mode is
`both` or `prefill` — so in mode `both` the decode analysis also runs with
the prefill-derived per-token compute time — and the derived `T_decode` is
used only when the mode is exactly `decode`. -/
theorem main_T_selection (args : Args) (rows : List BaselineRow)
    (pcie : Option (List ℚ)) (hB : truthyStr args.baseline_dir = true)
    (hT : args.T = none) :
    (args.mode = Mode.both →
      ∃ n r t, (derive_constants_from_results (some rows) pcie).T_prefill = some t ∧
        mainDispatch args (some rows) pcie = .ran true true n r t (args.alpha.getD 1)) ∧
    (args.mode = Mode.prefill →
      ∃ n r t, (derive_constants_from_results (some rows) pcie).T_prefill = some t ∧
        mainDispatch args (some rows) pcie = .ran true false n r t (args.alpha.getD 1)) ∧
    (args.mode = Mode.decode →
      ∃ n r t, (derive_constants_from_results (some rows) pcie).T_decode = some t ∧
        mainDispatch args (some rows) pcie = .ran false true n r t (args.alpha.getD 1)) := by
  obtain ⟨n, r, hrun⟩ := mainDispatch_baseline_derived args rows pcie hB hT
  refine ⟨?_, ?_, ?_⟩
  · intro hm
    rw [hm] at hrun
    refine ⟨n, r, _, rfl, ?_⟩
    simpa using hrun
  · intro hm
    rw [hm] at hrun
    refine ⟨n, r, _, rfl, ?_⟩
    simpa using hrun
  · intro hm
    rw [hm] at hrun
    refine ⟨n, r, _, rfl, ?_⟩
    simpa using hrun

/-- Witness for C10: with `--baseline-dir results/base`, `--N 4`, `--R 2`,
no `--T`, and a one-row baseline log (`prompt_len=2, ttft=1, avg_itl=1`),
mode `both` runs both analyses with the prefill-derived
`T = 500000` (mean ttft `1s` scaled to us over `N=2`), not the decode
constant `1000000`. -/
theorem main_T_selection_witness :
    truthyStr (some "results/base") = true ∧
    Args.T { mode := .both, N := some 4, L := none, R := some 2, T := none, alpha := none, baseline_dir := some "results/base", offload_dir := none } = none ∧
    (∃ n r t,
      (derive_constants_from_results
          (some [{ prompt_len := 2, ttft := 1, avg_itl := 1 }]) none).T_prefill
        = some t ∧
      mainDispatch { mode := .both, N := some 4, L := none, R := some 2, T := none, alpha := none, baseline_dir := some "results/base", offload_dir := none }
          (some [{ prompt_len := 2, ttft := 1, avg_itl := 1 }]) none
        = .ran true true n r t ((none : Option ℚ).getD 1)) ∧
    (derive_constants_from_results
        (some [{ prompt_len := 2, ttft := 1, avg_itl := 1 }]) none).T_prefill
      = some 500000 ∧
    (derive_constants_from_results
        (some [{ prompt_len := 2, ttft := 1, avg_itl := 1 }]) none).T_decode
      = some 1000000 := by
  have hB : truthyStr (some "results/base") = true := by
    simp [truthyStr]
  have hrun := (main_T_selection
    { mode := .both, N := some 4, L := none, R := some 2, T := none, alpha := none, baseline_dir := some "results/base", offload_dir := none }
    [{ prompt_len := 2, ttft := 1, avg_itl := 1 }] none hB rfl).1 rfl
  refine ⟨hB, rfl, hrun, ?_, ?_⟩
  · show some (if 0 < colMean [(2 : ℚ)] then colMean [(1 : ℚ)] * 1000000 / colMean [(2 : ℚ)] else 0) = some 500000
    norm_num [colMean]
  · show some (colMean [(1 : ℚ)] * 1000000) = some 1000000
    norm_num [colMean]
